import Mathlib

/-!
# Verification of the store liveness monitoring system

Shallow embedding of the heartbeat monitoring server
(`src/server.js`, class `CentralizedMonitoringServer`) and the heartbeat
client (`StoreHeartbeatClient`).  Times are modelled as natural numbers of
milliseconds; JavaScript `Map`s are modelled as association lists with
`Map.set` update-in-place-or-append semantics; fields that may be
`undefined` in JavaScript are modelled as `Option`.
-/

namespace AlertHongs

/-- JavaScript `Map.get`: first binding for the key, if any. -/
def getA {α β : Type} [DecidableEq α] : List (α × β) → α → Option β
  | [], _ => none
  | (k, v) :: rest, key => if k = key then some v else getA rest key

/-- JavaScript `Map.set`: replace the binding in place if the key is
present, otherwise append at the end (insertion order preserved). -/
def setA {α β : Type} [DecidableEq α] : List (α × β) → α → β → List (α × β)
  | [], key, val => [(key, val)]
  | (k, v) :: rest, key, val =>
    if k = key then (k, val) :: rest else (k, v) :: setA rest key val

/-- Store liveness status (`stores.status` enum and the in-memory value). -/
inductive Status
  | online
  | offline
  | unknown
  deriving DecidableEq, Repr

/-- In-memory alert kinds used by `sendAlert` callers. -/
inductive AlertKind
  | startup
  | recovery
  | offline
  deriving DecidableEq, Repr

/-- Alert severity (`alerts.severity` enum). -/
inductive Severity
  | low
  | medium
  | high
  | critical
  deriving DecidableEq, Repr

/-- Persisted `alerts.alert_type` enum (narrower than `AlertKind`). -/
inductive DbAlertType
  | offline
  | system_warning
  | camera_failure
  | test
  deriving DecidableEq, Repr

/-- The fields of an incoming heartbeat body that the monitoring logic
reads.  `store_id` may be absent (the code never validates it). -/
structure Heartbeat where
  store_id : Option String
  store_name : Option String
  is_startup : Option Bool
  timezone : Option String
  deriving DecidableEq, Repr

/-- In-memory per-store record held in `this.allStores`. -/
structure StoreRec where
  store_id : Option String
  store_name : String
  location : String
  status : Status
  last_heartbeat : Option Nat
  last_seen : Option Nat
  first_seen : Nat
  updated_at : Nat
  hasData : Bool
  deriving DecidableEq, Repr

/-- The monitoring server's mutable state (`CentralizedMonitoringServer`). -/
structure ServerState where
  alertThresholdMinutes : Nat
  offlineAlertCooldownMinutes : Nat
  emailEnabled : Bool
  storeEmailConfig : List (String × List String)
  allStores : List (Option String × StoreRec)
  lastOfflineAlerts : List (Option String × Nat)
  lastRecoveryAlerts : List (Option String × Nat)
  lastStartupAlerts : List (Option String × Nat)
  deriving DecidableEq, Repr

/-- One `this.sendAlert(storeId, kind, message, severity, …)` invocation. -/
structure AlertEvent where
  store_id : Option String
  kind : AlertKind
  severity : Severity
  deriving DecidableEq, Repr

/-- Row inserted into the `alerts` table by `sendAlert`. -/
structure AlertRow where
  store_id : Option String
  alert_type : DbAlertType
  severity : Severity
  deriving DecidableEq, Repr

/-- An email handed to the transporter by `sendAlert`. -/
structure Notification where
  recipients : List String
  store_id : Option String
  kind : AlertKind
  deriving DecidableEq, Repr

/-- `alertTypeMapping` in `sendAlert`: startup and recovery are coerced to
`test` for persistence; offline stays `offline`. -/
def alertTypeMapping : AlertKind → DbAlertType
  | AlertKind.startup => DbAlertType.test
  | AlertKind.recovery => DbAlertType.test
  | AlertKind.offline => DbAlertType.offline

/-- JavaScript `x || d` for an optional string (empty string is falsy). -/
def jsOrDefault : Option String → String → String
  | none, d => d
  | some s, d => if s = "" then d else s

/-- `this.storeEmailConfig.get(storeId) || []`: the store-specific
recipient list.  A `Map` keyed by strings never holds `undefined`, so a
missing `store_id` looks up nothing. -/
def storeConfiguredEmails (st : ServerState) (storeId : Option String) :
    List String :=
  (match storeId with
   | some s => getA st.storeEmailConfig s
   | none => none).getD []

/-- `this.storeEmailConfig.get("default") || []`. -/
def defaultConfiguredEmails (st : ServerState) : List String :=
  (getA st.storeEmailConfig "default").getD []

/-- `getEmailRecipients`: store-specific list if non-empty, else the
`"default"` list. -/
def getEmailRecipients (st : ServerState) (storeId : Option String) : List String :=
  if (storeConfiguredEmails st storeId).length > 0
  then storeConfiguredEmails st storeId
  else defaultConfiguredEmails st

/-- `sendAlert`: insert an alert row (with the lossy type mapping), then —
only if email is enabled and the recipient list is non-empty — hand one
message to the transporter.  Returns (persisted rows, notifications). -/
def sendAlert (st : ServerState) (storeId : Option String) (kind : AlertKind)
    (severity : Severity) : List AlertRow × List Notification :=
  let row : AlertRow := ⟨storeId, alertTypeMapping kind, severity⟩
  if !st.emailEnabled then ([row], [])
  else
    let recipients := getEmailRecipients st storeId
    if recipients.length = 0 then ([row], [])
    else ([row], [⟨recipients, storeId, kind⟩])

/-- The single transaction written by `saveHeartbeatToDatabase`:
a `stores` upsert (status forced to online), one `heartbeat_history` row
and one `system_stats` row. -/
structure HeartbeatTxn where
  store_id : Option String
  store_name : String
  last_heartbeat : Nat
  status : Status
  historyRow : Bool
  statsRow : Bool
  deriving DecidableEq, Repr

/-- `saveHeartbeatToDatabase`: on success the three writes commit
atomically; on any database error the transaction is rolled back and the
error is swallowed (logged only), so the caller never sees a failure. -/
def saveHeartbeatToDatabase (dbOk : Bool) (storeId : Option String)
    (storeName : String) (timestamp : Nat) : Option HeartbeatTxn :=
  if dbOk then some ⟨storeId, storeName, timestamp, Status.online, true, true⟩
  else none

/-- Ack object returned by `processHeartbeat`. -/
structure Ack where
  status : String
  message : String
  total_stores_monitored : Nat
  deriving DecidableEq, Repr

/-- Everything produced by one `processHeartbeat` call. -/
structure HbResult where
  state : ServerState
  alerts : List AlertEvent
  rows : List AlertRow
  notifs : List Notification
  txn : Option HeartbeatTxn
  ack : Ack
  deriving DecidableEq, Repr

/-- Core of `processHeartbeat`: update the in-memory record (always to
online), then at most one alert: first-heartbeat startup, `is_startup`
startup under a 10-minute cooldown, or offline-to-online recovery under a
5-minute cooldown. -/
def processHeartbeatCore (st : ServerState) (hb : Heartbeat) (now : Nat) :
    ServerState × List AlertEvent × List AlertRow × List Notification :=
  let storeId := hb.store_id
  let storeName := jsOrDefault hb.store_name "Store"
  let previousState := getA st.allStores storeId
  let wasOffline : Bool :=
    match previousState with
    | some p => decide (p.status = Status.offline)
    | none => false
  let isFirstHeartbeat : Bool := previousState.isNone
  let isStartup : Bool := decide (hb.is_startup = some true)
  let storeState : StoreRec :=
    { store_id := storeId
      store_name := storeName
      location := jsOrDefault hb.timezone "Unknown"
      status := Status.online
      last_heartbeat := some now
      last_seen := some now
      first_seen := (previousState.map StoreRec.first_seen).getD now
      updated_at := now
      hasData := true }
  let st1 := { st with allStores := setA st.allStores storeId storeState }
  if isFirstHeartbeat then
    let rn := sendAlert st1 storeId AlertKind.startup Severity.low
    ({ st1 with lastStartupAlerts := setA st1.lastStartupAlerts storeId now },
      [⟨storeId, AlertKind.startup, Severity.low⟩], rn.1, rn.2)
  else if isStartup then
    let lastStartup := getA st1.lastStartupAlerts storeId
    let shouldSendStartup : Bool :=
      match lastStartup with
      | none => true
      | some t => decide (now - t > 10 * 60000)
    if shouldSendStartup then
      let rn := sendAlert st1 storeId AlertKind.startup Severity.low
      ({ st1 with lastStartupAlerts := setA st1.lastStartupAlerts storeId now },
        [⟨storeId, AlertKind.startup, Severity.low⟩], rn.1, rn.2)
    else (st1, [], [], [])
  else if wasOffline then
    let lastRecovery := getA st1.lastRecoveryAlerts storeId
    let shouldSendRecovery : Bool :=
      match lastRecovery with
      | none => true
      | some t => decide (now - t > 5 * 60000)
    if shouldSendRecovery then
      let rn := sendAlert st1 storeId AlertKind.recovery Severity.medium
      ({ st1 with lastRecoveryAlerts := setA st1.lastRecoveryAlerts storeId now },
        [⟨storeId, AlertKind.recovery, Severity.medium⟩], rn.1, rn.2)
    else (st1, [], [], [])
  else (st1, [], [], [])

/-- `processHeartbeat`: run the core update, persist the heartbeat (the
database outcome `dbOk` never influences anything but the transaction
itself), and build the success ack. -/
def processHeartbeat (st : ServerState) (dbOk : Bool) (hb : Heartbeat)
    (now : Nat) : HbResult :=
  let txn := saveHeartbeatToDatabase dbOk hb.store_id
    (jsOrDefault hb.store_name "Store") now
  let core := processHeartbeatCore st hb now
  { state := core.1
    alerts := core.2.1
    rows := core.2.2.1
    notifs := core.2.2.2
    txn := txn
    ack :=
      { status := "success"
        message := "Heartbeat processed"
        total_stores_monitored := core.1.allStores.length } }

/-- `canSendOfflineAlert`: allowed when no previous offline alert is
recorded, or when the cooldown has elapsed (`>=`); in both allowed cases
the last-offline-alert instant is updated to now. -/
def canSendOfflineAlert (st : ServerState) (storeId : Option String)
    (now : Nat) : Bool × ServerState :=
  match getA st.lastOfflineAlerts storeId with
  | none =>
    (true, { st with lastOfflineAlerts := setA st.lastOfflineAlerts storeId now })
  | some t =>
    if now - t ≥ st.offlineAlertCooldownMinutes * 60000 then
      (true, { st with lastOfflineAlerts := setA st.lastOfflineAlerts storeId now })
    else (false, st)

/-- Output of the health-check sweep: new state, the `sendAlert` calls
made, and the `updateStoreStatusInDB` calls made. -/
structure SweepOut where
  state : ServerState
  alerts : List AlertEvent
  dbUpdates : List (Option String × Status)
  deriving DecidableEq, Repr

/-- Body of the `performHealthCheck` loop for one store entry.  A store
counts as offline when strictly more minutes than `alertThresholdMinutes`
have passed since its last heartbeat (no extra buffer).  On a fresh
transition the status is flipped and a first offline alert is sent without
consulting or recording the cooldown; while already offline a repeat alert
is gated by `canSendOfflineAlert`. -/
def sweepStore (now : Nat) (st : ServerState)
    (entry : Option String × StoreRec) : SweepOut :=
  let storeId := entry.1
  let store := entry.2
  match store.last_heartbeat with
  | none => ⟨st, [], []⟩
  | some lastHb =>
    let isOffline : Bool := decide (now - lastHb > st.alertThresholdMinutes * 60000)
    if isOffline then
      if store.status ≠ Status.offline then
        let st1 := { st with
          allStores := setA st.allStores storeId { store with status := Status.offline } }
        ⟨st1, [⟨storeId, AlertKind.offline, Severity.critical⟩],
          [(storeId, Status.offline)]⟩
      else
        let r := canSendOfflineAlert st storeId now
        if r.1 then
          ⟨r.2, [⟨storeId, AlertKind.offline, Severity.critical⟩], []⟩
        else ⟨r.2, [], []⟩
    else ⟨st, [], []⟩

/-- The `for (const [storeId, store] of this.allStores)` loop of
`performHealthCheck` over a snapshot of the entries. -/
def sweepLoop (now : Nat) (st : ServerState) :
    List (Option String × StoreRec) → SweepOut
  | [] => ⟨st, [], []⟩
  | e :: rest =>
    let r1 := sweepStore now st e
    let r2 := sweepLoop now r1.state rest
    ⟨r2.state, r1.alerts ++ r2.alerts, r1.dbUpdates ++ r2.dbUpdates⟩

/-- A row of the persistent `stores` table as read back by the server. -/
structure DbStoreRow where
  store_id : String
  store_name : Option String
  last_heartbeat : Option Nat
  status : Status
  created_at : Nat
  updated_at : Nat
  deriving DecidableEq, Repr

/-- The in-memory record `syncWithDatabase` builds for a database row it
found missing from memory: the status column of the row is copied. -/
def hydrateRow (now : Nat) (row : DbStoreRow) : StoreRec :=
  { store_id := some row.store_id
    store_name := jsOrDefault row.store_name "Store"
    location := "Unknown"
    status := row.status
    last_heartbeat := row.last_heartbeat
    last_seen := row.last_heartbeat
    first_seen := row.last_heartbeat.getD now
    updated_at := now
    hasData := false }

/-- `syncWithDatabase`: every store present in the `stores` table but
absent from memory is added to memory, carrying the status column of the
row; stores already in memory are left untouched and no alert is sent. -/
def syncWithDatabase (now : Nat) (st : ServerState) :
    List DbStoreRow → ServerState
  | [] => st
  | row :: rest =>
    let st1 :=
      if (getA st.allStores (some row.store_id)).isSome then st
      else { st with allStores := setA st.allStores (some row.store_id) (hydrateRow now row) }
    syncWithDatabase now st1 rest

/-- `performHealthCheck`: sweep the in-memory stores, then pull unknown
stores out of the database. -/
def performHealthCheck (now : Nat) (st : ServerState)
    (dbStores : List DbStoreRow) : SweepOut :=
  let r := sweepLoop now st st.allStores
  ⟨syncWithDatabase now r.state dbStores, r.alerts, r.dbUpdates⟩

/-- The in-memory record `loadExistingStoresFromDB` builds on startup for
a database row: the persisted status column is copied. -/
def loadRow (row : DbStoreRow) : StoreRec :=
  { store_id := some row.store_id
    store_name := jsOrDefault row.store_name "Store"
    location := "Unknown"
    status := row.status
    last_heartbeat := row.last_heartbeat
    last_seen := row.last_heartbeat
    first_seen := row.created_at
    updated_at := row.updated_at
    hasData := false }

/-- `loadExistingStoresFromDB` (server startup): copy every `stores` row
into memory, keeping the persisted status column; emits nothing. -/
def loadExistingStoresFromDB (st : ServerState) :
    List DbStoreRow → ServerState
  | [] => st
  | row :: rest =>
    let st1 := { st with allStores := setA st.allStores (some row.store_id) (loadRow row) }
    loadExistingStoresFromDB st1 rest

/-- Response of the `POST /heartbeat` route. -/
structure RouteResponse where
  httpStatus : Nat
  ack : Option Ack
  deriving DecidableEq, Repr

/-- Model of `app.post("/heartbeat")` together with the `express.json`
middleware in front of it: a body that fails JSON parsing is answered 400
by the middleware and never reaches the handler; a parsed body is handed
to `processHeartbeat` and its result is returned with HTTP 200 (the
spread `{status:"received", ...result}` lets `result.status = "success"`
win). -/
def heartbeatRoute (st : ServerState) (dbOk : Bool) (body : Option Heartbeat)
    (now : Nat) : RouteResponse × ServerState :=
  match body with
  | none => (⟨400, none⟩, st)
  | some hb =>
    let r := processHeartbeat st dbOk hb now
    (⟨200, some r.ack⟩, r.state)

/-! ## Client (`StoreHeartbeatClient`) -/

/-- A `heartbeat_buffer` row in the client's durable local store.
`storedAt` is the insertion instant (both the stored `timestamp` column
and `created_at` equal it).  `parseOk` and `hasStoreId` record whether the
stored JSON parses and carries a `store_id`. -/
structure BufEntry where
  id : Nat
  storedAt : Nat
  sent : Bool
  parseOk : Bool
  hasStoreId : Bool
  deriving DecidableEq, Repr

/-- Outcome of one buffered POST as the client code distinguishes them:
a 200 response, another 2xx response (axios resolves but the code only
marks on 200), an HTTP error response (axios rejects, `error.code` is not
a network code), or a network-class failure (`ECONNREFUSED`/`ETIMEDOUT`). -/
inductive SendOutcome
  | ok
  | other2xx
  | httpError
  | netError
  deriving DecidableEq, Repr

/-- `SELECT … WHERE sent = FALSE ORDER BY id LIMIT 10`: the first ten
unsent entries in id order (the buffer list is kept in insertion = id
order). -/
def peekBatch (buffer : List BufEntry) : List BufEntry :=
  (buffer.filter (fun e => !e.sent)).take 10

/-- `UPDATE heartbeat_buffer SET sent = TRUE WHERE id = ?`. -/
def markSent (buffer : List BufEntry) (i : Nat) : List BufEntry :=
  buffer.map (fun e => if e.id = i then { e with sent := true } else e)

/-- An entry survives the two pre-send checks of the drain loop: its JSON
parses and the parsed object has a `store_id`. -/
def entryValid (e : BufEntry) : Bool :=
  e.parseOk && e.hasStoreId

/-- The `for (const row of bufferedHeartbeats)` loop of
`sendBufferedHeartbeats`: invalid entries are skipped with `continue`;
a 200 marks the entry sent; another 2xx or an HTTP error counts a failure
and continues; the first network-class failure breaks out of the loop. -/
def drainBatch (outcome : Nat → SendOutcome) :
    List BufEntry → List BufEntry → List BufEntry
  | [], buffer => buffer
  | e :: rest, buffer =>
    if !(entryValid e) then drainBatch outcome rest buffer
    else
      match outcome e.id with
      | SendOutcome.ok => drainBatch outcome rest (markSent buffer e.id)
      | SendOutcome.other2xx => drainBatch outcome rest buffer
      | SendOutcome.httpError => drainBatch outcome rest buffer
      | SendOutcome.netError => buffer

/-- `sendBufferedHeartbeats` (durable-store mode): drain the peeked batch
against the buffer. -/
def sendBufferedHeartbeats (outcome : Nat → SendOutcome)
    (buffer : List BufEntry) : List BufEntry :=
  drainBatch outcome (peekBatch buffer) buffer

/-- The prefix of the batch that the drain loop actually reaches: it stops
right after the first valid entry whose send fails with a network-class
error. -/
def attempted (outcome : Nat → SendOutcome) (batch : List BufEntry) :
    List BufEntry :=
  batch.takeWhile (fun e => !(entryValid e && outcome e.id == SendOutcome.netError))

/-- Ids of the batch entries that get marked sent: reached, valid, and
answered 200. -/
def markedIds (outcome : Nat → SendOutcome) (batch : List BufEntry) :
    List Nat :=
  ((attempted outcome batch).filter
    (fun e => entryValid e && outcome e.id == SendOutcome.ok)).map BufEntry.id

/-- `DELETE FROM heartbeat_buffer WHERE created_at < DATE_SUB(NOW(),
INTERVAL 24 HOUR)` — durable-store garbage collection. -/
def clearOldBufferedHeartbeatsDb (now : Nat) (buffer : List BufEntry) :
    List BufEntry :=
  buffer.filter (fun e => !(decide ((e.storedAt : Int) < (now : Int) - 86400000)))

/-- An entry of the in-memory fallback buffer. -/
structure MemEntry where
  id : Nat
  storedAt : Nat
  deriving DecidableEq, Repr

/-- In-memory fallback garbage collection: `oneHourAgo = Date.now() -
60*60*1000`, keep entries with `itemTime > oneHourAgo`. -/
def clearOldBufferedHeartbeatsMem (now : Nat) (buffer : List MemEntry) :
    List MemEntry :=
  buffer.filter (fun e => decide ((e.storedAt : Int) > (now : Int) - 3600000))

/-- The client state that the startup-flag logic touches. -/
structure ClientState where
  isFirstHeartbeat : Bool
  consecutiveFailures : Nat
  deriving DecidableEq, Repr

/-- Constructor state: `this.isFirstHeartbeat = true`. -/
def initialClient : ClientState :=
  { isFirstHeartbeat := true, consecutiveFailures := 0 }

/-- One `sendHeartbeat` attempt: the payload carries
`is_startup = this.isFirstHeartbeat` (read in `createHeartbeatPayload`);
only a 200 response clears the flag and resets the failure counter,
any failure leaves the flag set and increments the counter.
Returns the `is_startup` value carried by this attempt and the new state. -/
def sendHeartbeatStep (st : ClientState) (ok : Bool) : Bool × ClientState :=
  let payloadStartup := st.isFirstHeartbeat
  if ok then
    (payloadStartup, { st with isFirstHeartbeat := false, consecutiveFailures := 0 })
  else
    (payloadStartup, { st with consecutiveFailures := st.consecutiveFailures + 1 })

/-- Run a sequence of heartbeat attempts (each `Bool` is whether that
delivery succeeded) and collect the `is_startup` flag each one carried. -/
def runHeartbeatAttempts (st : ClientState) : List Bool → List Bool
  | [] => []
  | ok :: rest =>
    let r := sendHeartbeatStep st ok
    r.1 :: runHeartbeatAttempts r.2 rest

/-- The in-memory mutation `store.status = "offline"` performed by the
sweep on a fresh offline transition. -/
def markOffline (store : StoreRec) : StoreRec :=
  { store with status := Status.offline }

/-! ## Concrete fixtures used to evaluate the code on explicit inputs -/

/-- A store that has been online with its last heartbeat at instant 0. -/
def storeA : StoreRec :=
  { store_id := some "A"
    store_name := "Store A"
    location := "Unknown"
    status := Status.online
    last_heartbeat := some 0
    last_seen := some 0
    first_seen := 0
    updated_at := 0
    hasData := true }

/-- Server state with the default configuration (threshold 5 minutes,
offline cooldown 5 minutes) tracking only `storeA`. -/
def stC1 : ServerState :=
  { alertThresholdMinutes := 5
    offlineAlertCooldownMinutes := 5
    emailEnabled := false
    storeEmailConfig := []
    allStores := [(some "A", storeA)]
    lastOfflineAlerts := []
    lastRecoveryAlerts := []
    lastStartupAlerts := [] }

/-- Server state with the default configuration and an empty in-memory
registry. -/
def stEmpty : ServerState :=
  { alertThresholdMinutes := 5
    offlineAlertCooldownMinutes := 5
    emailEnabled := false
    storeEmailConfig := []
    allStores := []
    lastOfflineAlerts := []
    lastRecoveryAlerts := []
    lastStartupAlerts := [] }

/-- A persisted `stores` row whose status column says offline. -/
def rowB : DbStoreRow :=
  { store_id := "B"
    store_name := some "Store B"
    last_heartbeat := some 0
    status := Status.offline
    created_at := 0
    updated_at := 0 }

/-- A heartbeat body carrying no `store_id` at all. -/
def hb0 : Heartbeat :=
  { store_id := none, store_name := none, is_startup := none, timezone := none }

/-- A valid, unsent buffered entry. -/
def eC4 : BufEntry :=
  { id := 1, storedAt := 0, sent := false, parseOk := true, hasStoreId := true }

/-- One-entry buffer holding `eC4`. -/
def bufC4 : List BufEntry := [eC4]

/-- An outcome function that answers every buffered POST with a non-network
HTTP error (e.g. a 4xx response). -/
def outC4 : Nat → SendOutcome := fun _ => SendOutcome.httpError

/-- `storeA` but currently marked offline. -/
def storeOffline : StoreRec :=
  { storeA with status := Status.offline }

/-- Server state tracking one store that is currently offline. -/
def stC5 : ServerState :=
  { alertThresholdMinutes := 5
    offlineAlertCooldownMinutes := 5
    emailEnabled := false
    storeEmailConfig := []
    allStores := [(some "A", storeOffline)]
    lastOfflineAlerts := []
    lastRecoveryAlerts := []
    lastStartupAlerts := [] }

/-- A heartbeat for store A carrying `is_startup = true`. -/
def hbStartup : Heartbeat :=
  { store_id := some "A"
    store_name := some "Store A"
    is_startup := some true
    timezone := none }

/-- Three valid unsent buffered entries with ascending ids. -/
def bufC6 : List BufEntry :=
  [{ id := 1, storedAt := 0, sent := false, parseOk := true, hasStoreId := true },
   { id := 2, storedAt := 0, sent := false, parseOk := true, hasStoreId := true },
   { id := 3, storedAt := 0, sent := false, parseOk := true, hasStoreId := true }]

/-- Outcomes for the C6 witness: entry 1 succeeds, entry 2 hits a
network-class failure, entry 3 would succeed but is never reached. -/
def outC6 : Nat → SendOutcome := fun i =>
  if i = 2 then SendOutcome.netError else SendOutcome.ok

/-- A well-formed heartbeat used to exercise the ingestion path. -/
def hbC8 : Heartbeat :=
  { store_id := some "S8"
    store_name := some "Store 8"
    is_startup := some false
    timezone := none }

/-- Server state with email enabled and only a `"default"` recipient
list configured. -/
def stC9 : ServerState :=
  { alertThresholdMinutes := 5
    offlineAlertCooldownMinutes := 5
    emailEnabled := true
    storeEmailConfig := [("default", ["ops"])]
    allStores := []
    lastOfflineAlerts := []
    lastRecoveryAlerts := []
    lastStartupAlerts := [] }

/-- A buffered entry stored at instant 0. -/
def eC10 : BufEntry :=
  { id := 1, storedAt := 0, sent := false, parseOk := true, hasStoreId := true }

/-- An in-memory fallback entry stored at instant 89000000. -/
def mC10 : MemEntry := { id := 2, storedAt := 89000000 }

theorem getA_setA_self {α β : Type} [DecidableEq α]
    (m : List (α × β)) (k : α) (v : β) : getA (setA m k v) k = some v := by
  induction m with
  | nil => simp [getA, setA]
  | cons hd tl ih =>
    obtain ⟨k0, v0⟩ := hd
    by_cases h : k0 = k
    · subst h; simp [getA, setA]
    · simp [getA, setA, h, ih]

theorem getA_setA_ne {α β : Type} [DecidableEq α]
    (m : List (α × β)) (k k' : α) (v : β) (hne : k ≠ k') :
    getA (setA m k v) k' = getA m k' := by
  induction m with
  | nil => simp [getA, setA, hne]
  | cons hd tl ih =>
    obtain ⟨k0, v0⟩ := hd
    by_cases h : k0 = k
    · subst h; simp [getA, setA, hne]
    · simp only [setA, if_neg h, getA]
      by_cases h2 : k0 = k'
      · simp [h2]
      · simp [h2, ih]

theorem getA_mem {α β : Type} [DecidableEq α]
    {m : List (α × β)} {k : α} {v : β} (h : getA m k = some v) : (k, v) ∈ m := by
  induction m with
  | nil => simp [getA] at h
  | cons hd tl ih =>
    obtain ⟨k0, v0⟩ := hd
    simp only [getA] at h
    by_cases hk : k0 = k
    · subst hk
      simp at h
      subst h
      exact List.mem_cons_self _ _
    · rw [if_neg hk] at h
      exact List.mem_cons_of_mem _ (ih h)

theorem getA_eq_none_of_not_mem_keys {α β : Type} [DecidableEq α]
    {m : List (α × β)} {k : α} (h : k ∉ m.map Prod.fst) : getA m k = none := by
  induction m with
  | nil => rfl
  | cons hd tl ih =>
    obtain ⟨k0, v0⟩ := hd
    simp only [List.map_cons, List.mem_cons, not_or] at h
    have hne : k0 ≠ k := fun he => h.1 he.symm
    simp only [getA, if_neg hne]
    exact ih h.2

/-! ## Helper lemmas about the buffer drain -/

theorem markSent_markSent (buffer : List BufEntry) (i : Nat) :
    markSent (markSent buffer i) i = markSent buffer i := by
  simp only [markSent, List.map_map]
  apply List.map_congr_left
  intro e _
  by_cases h : e.id = i <;> simp [h]

theorem drainBatch_eq_markAll (outcome : Nat → SendOutcome) :
    ∀ (batch buffer : List BufEntry),
      drainBatch outcome batch buffer =
        buffer.map (fun e =>
          if e.id ∈ markedIds outcome batch then { e with sent := true } else e) := by
  intro batch
  induction batch with
  | nil =>
    intro buffer
    simp [drainBatch, markedIds, attempted]
  | cons e rest ih =>
    intro buffer
    by_cases hv : entryValid e
    · cases ho : outcome e.id
      ·
        have hatt : attempted outcome (e :: rest) = e :: attempted outcome rest := by
          simp only [attempted, List.takeWhile, hv, ho]
          rfl
        have hmark : markedIds outcome (e :: rest) = e.id :: markedIds outcome rest := by
          simp [markedIds, hatt, List.filter, hv, ho]
        have hdrain : drainBatch outcome (e :: rest) buffer =
            drainBatch outcome rest (markSent buffer e.id) := by
          simp [drainBatch, hv, ho]
        rw [hdrain, ih, hmark]
        simp only [markSent, List.map_map]
        apply List.map_congr_left
        intro x _
        by_cases hx : x.id = e.id
        · by_cases hm : x.id ∈ markedIds outcome rest <;>
            simp [Function.comp, hx, hm, List.mem_cons]
        · by_cases hm : x.id ∈ markedIds outcome rest <;>
            simp [Function.comp, hx, hm, List.mem_cons]
      ·
        have hatt : attempted outcome (e :: rest) = e :: attempted outcome rest := by
          simp only [attempted, List.takeWhile, hv, ho]
          rfl
        have hmark : markedIds outcome (e :: rest) = markedIds outcome rest := by
          simp [markedIds, hatt, List.filter, hv, ho]
        have hdrain : drainBatch outcome (e :: rest) buffer =
            drainBatch outcome rest buffer := by
          simp [drainBatch, hv, ho]
        rw [hdrain, ih, hmark]
      ·
        have hatt : attempted outcome (e :: rest) = e :: attempted outcome rest := by
          simp only [attempted, List.takeWhile, hv, ho]
          rfl
        have hmark : markedIds outcome (e :: rest) = markedIds outcome rest := by
          simp [markedIds, hatt, List.filter, hv, ho]
        have hdrain : drainBatch outcome (e :: rest) buffer =
            drainBatch outcome rest buffer := by
          simp [drainBatch, hv, ho]
        rw [hdrain, ih, hmark]
      ·
        have hatt : attempted outcome (e :: rest) = [] := by
          simp [attempted, List.takeWhile, hv, ho]
        have hmark : markedIds outcome (e :: rest) = [] := by
          simp [markedIds, hatt]
        have hdrain : drainBatch outcome (e :: rest) buffer = buffer := by
          simp [drainBatch, hv, ho]
        rw [hdrain, hmark]
        simp
    · have hatt : attempted outcome (e :: rest) = e :: attempted outcome rest := by
        simp [attempted, List.takeWhile, hv]
      have hmark : markedIds outcome (e :: rest) = markedIds outcome rest := by
        simp [markedIds, hatt, List.filter, hv]
      have hdrain : drainBatch outcome (e :: rest) buffer =
          drainBatch outcome rest buffer := by
        simp [drainBatch, hv]
      rw [hdrain, ih, hmark]

theorem markedIds_outcome_ok (outcome : Nat → SendOutcome)
    (batch : List BufEntry) {i : Nat} (h : i ∈ markedIds outcome batch) :
    outcome i = SendOutcome.ok := by
  simp only [markedIds, List.mem_map, List.mem_filter] at h
  obtain ⟨x, ⟨-, hx⟩, rfl⟩ := h
  have := (Bool.and_eq_true _ _).mp hx
  exact beq_iff_eq.mp this.2

theorem peekBatch_sublist (buffer : List BufEntry) :
    (peekBatch buffer).Sublist buffer :=
  (List.take_sublist _ _).trans (List.filter_sublist _)

/-! ## Helper lemmas about the health-check sweep -/

theorem getA_eq_none_iff {α β : Type} [DecidableEq α]
    (m : List (α × β)) (k : α) : getA m k = none ↔ k ∉ m.map Prod.fst := by
  constructor
  · intro h hk
    induction m with
    | nil => simp at hk
    | cons hd tl ih =>
      obtain ⟨k0, v0⟩ := hd
      simp only [getA] at h
      by_cases he : k0 = k
      · simp [he] at h
      · rw [if_neg he] at h
        simp only [List.map_cons, List.mem_cons] at hk
        rcases hk with hk | hk
        · exact he hk.symm
        · exact ih h hk
  · exact getA_eq_none_of_not_mem_keys

theorem canSendOfflineAlert_state (st : ServerState) (sid : Option String)
    (now : Nat) :
    (canSendOfflineAlert st sid now).2 = st ∨
    (canSendOfflineAlert st sid now).2 =
      { st with lastOfflineAlerts := setA st.lastOfflineAlerts sid now } := by
  unfold canSendOfflineAlert
  rcases hg : getA st.lastOfflineAlerts sid with _ | t
  · right; rfl
  · simp only
    split
    · right; rfl
    · left; rfl

theorem sweepStore_state_cases (now : Nat) (st : ServerState)
    (e : Option String × StoreRec) :
    (sweepStore now st e).state = st ∨
    (sweepStore now st e).state =
      { st with allStores := setA st.allStores e.1 { e.2 with status := Status.offline } } ∨
    (sweepStore now st e).state =
      { st with lastOfflineAlerts := setA st.lastOfflineAlerts e.1 now } := by
  obtain ⟨sid, store⟩ := e
  rcases hlb : store.last_heartbeat with _ | t
  · left
    simp [sweepStore, hlb]
  · simp only [sweepStore, hlb]
    split
    · split
      · right; left; rfl
      · rcases canSendOfflineAlert_state st sid now with hc | hc <;> split <;>
          rw [hc]
        · left; rfl
        · left; rfl
        · right; right; rfl
        · right; right; rfl
    · left; rfl

theorem sweepStore_alerts_cases (now : Nat) (st : ServerState)
    (e : Option String × StoreRec) :
    (sweepStore now st e).alerts = [] ∨
    (sweepStore now st e).alerts =
      [⟨e.1, AlertKind.offline, Severity.critical⟩] := by
  obtain ⟨sid, store⟩ := e
  rcases hlb : store.last_heartbeat with _ | t
  · left
    simp [sweepStore, hlb]
  · simp only [sweepStore, hlb]
    split
    · split
      · right; rfl
      · split
        · right; rfl
        · left; rfl
    · left; rfl

theorem sweepStore_config (now : Nat) (st : ServerState)
    (e : Option String × StoreRec) :
    (sweepStore now st e).state.alertThresholdMinutes = st.alertThresholdMinutes ∧
    (sweepStore now st e).state.offlineAlertCooldownMinutes =
      st.offlineAlertCooldownMinutes := by
  rcases sweepStore_state_cases now st e with h | h | h <;> rw [h] <;>
    exact ⟨rfl, rfl⟩

theorem sweepStore_getA_ne (now : Nat) (st : ServerState)
    (e : Option String × StoreRec) (k : Option String) (hk : k ≠ e.1) :
    getA (sweepStore now st e).state.allStores k = getA st.allStores k := by
  rcases sweepStore_state_cases now st e with h | h | h <;> rw [h] <;>
    first
    | rfl
    | exact getA_setA_ne _ _ _ _ (fun he => hk he.symm)

theorem sweepStore_loa_ne (now : Nat) (st : ServerState)
    (e : Option String × StoreRec) (k : Option String) (hk : k ≠ e.1) :
    getA (sweepStore now st e).state.lastOfflineAlerts k =
      getA st.lastOfflineAlerts k := by
  rcases sweepStore_state_cases now st e with h | h | h <;> rw [h] <;>
    first
    | rfl
    | exact getA_setA_ne _ _ _ _ (fun he => hk he.symm)

theorem sweepLoop_config (now : Nat) (st : ServerState)
    (entries : List (Option String × StoreRec)) :
    (sweepLoop now st entries).state.alertThresholdMinutes =
      st.alertThresholdMinutes ∧
    (sweepLoop now st entries).state.offlineAlertCooldownMinutes =
      st.offlineAlertCooldownMinutes := by
  induction entries generalizing st with
  | nil => exact ⟨rfl, rfl⟩
  | cons e rest ih =>
    have h1 := sweepStore_config now st e
    have h2 := ih (sweepStore now st e).state
    simp only [sweepLoop]
    exact ⟨h2.1.trans h1.1, h2.2.trans h1.2⟩

theorem sweepLoop_alert_keys (now : Nat) (st : ServerState)
    (entries : List (Option String × StoreRec)) (a : AlertEvent)
    (ha : a ∈ (sweepLoop now st entries).alerts) :
    a.store_id ∈ entries.map Prod.fst := by
  induction entries generalizing st with
  | nil => simp [sweepLoop] at ha
  | cons e rest ih =>
    simp only [sweepLoop, List.mem_append] at ha
    rcases ha with ha | ha
    · rcases sweepStore_alerts_cases now st e with h | h <;> rw [h] at ha
      · simp at ha
      · simp only [List.mem_singleton] at ha
        subst ha
        simp
    · exact List.mem_cons_of_mem _ (ih _ ha)

theorem sweepLoop_getA_not_mem (now : Nat) (st : ServerState)
    (entries : List (Option String × StoreRec)) (k : Option String)
    (hk : k ∉ entries.map Prod.fst) :
    getA (sweepLoop now st entries).state.allStores k = getA st.allStores k := by
  induction entries generalizing st with
  | nil => rfl
  | cons e rest ih =>
    simp only [List.map_cons, List.mem_cons, not_or] at hk
    simp only [sweepLoop]
    rw [ih _ (fun h => hk.2 h)]
    exact sweepStore_getA_ne now st e k hk.1

theorem syncWithDatabase_getA_present (now : Nat) (k : Option String)
    (r : StoreRec) :
    ∀ (rows : List DbStoreRow) (st : ServerState),
      getA st.allStores k = some r →
      getA (syncWithDatabase now st rows).allStores k = some r := by
  intro rows
  induction rows with
  | nil => intro st h; exact h
  | cons row rest ih =>
    intro st h
    simp only [syncWithDatabase]
    by_cases hk : (some row.store_id : Option String) = k
    · subst hk
      rw [h]
      exact ih _ h
    · split
      · exact ih _ h
      · apply ih
        simp only
        rw [getA_setA_ne _ _ _ _ hk]
        exact h

theorem syncWithDatabase_getA_not_mentioned (now : Nat) (k : Option String) :
    ∀ (rows : List DbStoreRow) (st : ServerState),
      (∀ row ∈ rows, (some row.store_id : Option String) ≠ k) →
      getA (syncWithDatabase now st rows).allStores k = getA st.allStores k := by
  intro rows
  induction rows with
  | nil => intro st _; rfl
  | cons row rest ih =>
    intro st hrows
    have hk : (some row.store_id : Option String) ≠ k :=
      hrows row (List.mem_cons_self _ _)
    have hrest : ∀ r ∈ rest, (some r.store_id : Option String) ≠ k :=
      fun r hr => hrows r (List.mem_cons_of_mem _ hr)
    simp only [syncWithDatabase]
    split
    · exact ih _ hrest
    · rw [ih _ hrest]
      simp only
      exact getA_setA_ne _ _ _ _ hk

theorem syncWithDatabase_inserts (now : Nat) (row : DbStoreRow) :
    ∀ (rows : List DbStoreRow) (st : ServerState),
      (rows.map DbStoreRow.store_id).Nodup →
      row ∈ rows →
      getA st.allStores (some row.store_id) = none →
      getA (syncWithDatabase now st rows).allStores (some row.store_id) =
        some (hydrateRow now row) := by
  intro rows
  induction rows with
  | nil => intro st _ hmem; simp at hmem
  | cons r0 rest ih =>
    intro st hnodup hmem habs
    simp only [List.map_cons, List.nodup_cons] at hnodup
    rcases List.mem_cons.mp hmem with heq | hmem2
    · subst heq
      simp only [syncWithDatabase, habs, Option.isSome_none, Bool.false_eq_true,
        if_false]
      have hrest : ∀ r ∈ rest, (some r.store_id : Option String) ≠ some row.store_id := by
        intro r hr he
        exact hnodup.1 (by
          rw [Option.some_inj] at he
          rw [← he]
          exact List.mem_map_of_mem _ hr)
      rw [syncWithDatabase_getA_not_mentioned now _ rest _ hrest]
      simp only
      exact getA_setA_self _ _ _
    · have hne : r0.store_id ≠ row.store_id := by
        intro he
        exact hnodup.1 (he ▸ List.mem_map_of_mem _ hmem2)
      simp only [syncWithDatabase]
      split
      · exact ih _ hnodup.2 hmem2 habs
      · apply ih _ hnodup.2 hmem2
        simp only
        rw [getA_setA_ne _ _ _ _ (fun he => hne (Option.some_inj.mp he))]
        exact habs

theorem loadExistingStoresFromDB_getA (row : DbStoreRow) :
    ∀ (rows : List DbStoreRow) (st : ServerState),
      (rows.map DbStoreRow.store_id).Nodup →
      row ∈ rows →
      getA (loadExistingStoresFromDB st rows).allStores (some row.store_id) =
        some (loadRow row) := by
  intro rows
  induction rows with
  | nil => intro st _ hmem; simp at hmem
  | cons r0 rest ih =>
    intro st hnodup hmem
    simp only [List.map_cons, List.nodup_cons] at hnodup
    rcases List.mem_cons.mp hmem with heq | hmem2
    · subst heq
      simp only [loadExistingStoresFromDB]
      have : ∀ (rows2 : List DbStoreRow) (st2 : ServerState),
          (∀ r ∈ rows2, (some r.store_id : Option String) ≠ some row.store_id) →
          getA (loadExistingStoresFromDB st2 rows2).allStores (some row.store_id) =
            getA st2.allStores (some row.store_id) := by
        intro rows2
        induction rows2 with
        | nil => intro st2 _; rfl
        | cons rr rrest ih2 =>
          intro st2 hr
          simp only [loadExistingStoresFromDB]
          rw [ih2 _ (fun x hx => hr x (List.mem_cons_of_mem _ hx))]
          simp only
          exact getA_setA_ne _ _ _ _ (hr rr (List.mem_cons_self _ _))
      rw [this rest _ (by
        intro r hr he
        exact hnodup.1 (by
          rw [Option.some_inj] at he
          rw [← he]
          exact List.mem_map_of_mem _ hr))]
      simp only
      exact getA_setA_self _ _ _
    · simp only [loadExistingStoresFromDB]
      exact ih _ hnodup.2 hmem2

theorem getA_of_mem_nodup {α β : Type} [DecidableEq α]
    {m : List (α × β)} {k : α} {v : β}
    (hnodup : (m.map Prod.fst).Nodup) (hmem : (k, v) ∈ m) :
    getA m k = some v := by
  induction m with
  | nil => simp at hmem
  | cons hd tl ih =>
    obtain ⟨k0, v0⟩ := hd
    simp only [List.map_cons, List.nodup_cons] at hnodup
    rcases List.mem_cons.mp hmem with heq | hmem2
    · rw [Prod.mk.injEq] at heq
      simp [getA, heq.1, heq.2]
    · have hk : k0 ≠ k := by
        intro he
        subst he
        exact hnodup.1 (List.mem_map_of_mem _ hmem2)
      simp only [getA, if_neg hk]
      exact ih hnodup.2 hmem2

theorem sweepStore_self_not_offline (now : Nat) (st : ServerState)
    (sid : Option String) (store : StoreRec) (t : Nat)
    (hlast : store.last_heartbeat = some t)
    (hstat : store.status ≠ Status.offline) :
    sweepStore now st (sid, store) =
      if now - t > st.alertThresholdMinutes * 60000 then
        SweepOut.mk
          { st with allStores := setA st.allStores sid (markOffline store) }
          [⟨sid, AlertKind.offline, Severity.critical⟩]
          [(sid, Status.offline)]
      else SweepOut.mk st [] [] := by
  simp only [sweepStore, hlast, markOffline]
  by_cases h : now - t > st.alertThresholdMinutes * 60000
  · simp [h, hstat]
  · simp [h]

theorem sweepLoop_first_offline (now : Nat) (sid : Option String)
    (store : StoreRec) (t : Nat)
    (hlast : store.last_heartbeat = some t)
    (hstat : store.status ≠ Status.offline) :
    ∀ (entries : List (Option String × StoreRec)) (st : ServerState),
      (entries.map Prod.fst).Nodup →
      (sid, store) ∈ entries →
      (((⟨sid, AlertKind.offline, Severity.critical⟩ : AlertEvent) ∈
          (sweepLoop now st entries).alerts) ↔
        now - t > st.alertThresholdMinutes * 60000)
      ∧ getA (sweepLoop now st entries).state.allStores sid =
          (if now - t > st.alertThresholdMinutes * 60000
           then some (markOffline store)
           else getA st.allStores sid) := by
  intro entries
  induction entries with
  | nil => intro st _ hmem; simp at hmem
  | cons e rest ih =>
    intro st hnodup hmem
    simp only [List.map_cons, List.nodup_cons] at hnodup
    rcases List.mem_cons.mp hmem with heq | hmem2
    · subst heq
      have hsidrest : sid ∉ rest.map Prod.fst := hnodup.1
      simp only [sweepLoop, sweepStore_self_not_offline now st sid store t hlast hstat]
      by_cases hoff : now - t > st.alertThresholdMinutes * 60000
      · rw [if_pos hoff]
        constructor
        · simp [hoff]
        · rw [if_pos hoff]
          rw [sweepLoop_getA_not_mem now _ rest sid hsidrest]
          exact getA_setA_self _ _ _
      · rw [if_neg hoff]
        constructor
        · simp only [List.nil_append]
          constructor
          · intro ha
            exact absurd (sweepLoop_alert_keys now _ rest _ ha) hsidrest
          · intro h; exact absurd h hoff
        · rw [if_neg hoff]
          exact sweepLoop_getA_not_mem now _ rest sid hsidrest
    · have hsid_mem : sid ∈ rest.map Prod.fst :=
        List.mem_map_of_mem _ hmem2
      have hne : sid ≠ e.1 := by
        intro he
        exact hnodup.1 (he ▸ hsid_mem)
      have hconf := sweepStore_config now st e
      have hih := ih (sweepStore now st e).state hnodup.2 hmem2
      rw [hconf.1] at hih
      rw [sweepStore_getA_ne now st e sid hne] at hih
      simp only [sweepLoop, List.mem_append]
      constructor
      · constructor
        · intro ha
          rcases ha with ha | ha
          · exfalso
            rcases sweepStore_alerts_cases now st e with hc | hc <;> rw [hc] at ha
            · simp at ha
            · simp only [List.mem_singleton] at ha
              have : sid = e.1 := congrArg AlertEvent.store_id ha
              exact hne this
          · exact hih.1.mp ha
        · intro h
          exact Or.inr (hih.1.mpr h)
      · exact hih.2

/-! ## Claim theorems -/

/-- C1 (amended): for every store with a recorded last heartbeat and a
status other than offline, a sweeper tick at time `now` transitions the
store to offline and fires the first offline alert exactly when
`now - last_heartbeat` strictly exceeds `alertThresholdMinutes` minutes —
the code applies no 30-second buffer on top of the threshold.  At or below
the bare threshold the store is left untouched and no offline alert fires
for it. -/
theorem C1_offline_threshold (now t : Nat) (sid : Option String)
    (store : StoreRec) (st : ServerState) (dbStores : List DbStoreRow)
    (hnodup : (st.allStores.map Prod.fst).Nodup)
    (hmem : (sid, store) ∈ st.allStores)
    (hlast : store.last_heartbeat = some t)
    (hstat : store.status ≠ Status.offline) :
    (((⟨sid, AlertKind.offline, Severity.critical⟩ : AlertEvent) ∈
        (performHealthCheck now st dbStores).alerts) ↔
      now - t > st.alertThresholdMinutes * 60000)
    ∧ (now - t > st.alertThresholdMinutes * 60000 →
        getA (performHealthCheck now st dbStores).state.allStores sid =
          some (markOffline store))
    ∧ (now - t ≤ st.alertThresholdMinutes * 60000 →
        getA (performHealthCheck now st dbStores).state.allStores sid =
          some store) := by
  have hloop := sweepLoop_first_offline now sid store t hlast hstat
    st.allStores st hnodup hmem
  refine ⟨hloop.1, ?_, ?_⟩
  · intro h
    have h2 := hloop.2
    rw [if_pos h] at h2
    exact syncWithDatabase_getA_present now sid _ dbStores _ h2
  · intro h
    have hno : ¬ (now - t > st.alertThresholdMinutes * 60000) := by omega
    have h2 := hloop.2
    rw [if_neg hno] at h2
    rw [getA_of_mem_nodup hnodup hmem] at h2
    exact syncWithDatabase_getA_present now sid store dbStores _ h2

/-- Witness for C1: with the default threshold of 5 minutes, a sweep 5.5
minutes after the last heartbeat fires the offline alert (because 5.5
minutes strictly exceeds the bare 5-minute threshold), and a sweep exactly
5 minutes after it leaves the store record unchanged. -/
theorem C1_offline_threshold_witness :
    ((⟨some "A", AlertKind.offline, Severity.critical⟩ : AlertEvent) ∈
      (performHealthCheck 330000 stC1 []).alerts) ∧
    getA (performHealthCheck 300000 stC1 []).state.allStores (some "A") =
      some storeA :=
  ⟨(C1_offline_threshold 330000 0 (some "A") storeA stC1 []
      (by decide) (by decide) (by decide) (by decide)).1.mpr (by decide),
   (C1_offline_threshold 300000 0 (some "A") storeA stC1 []
      (by decide) (by decide) (by decide) (by decide)).2.2 (by decide)⟩

/-- Counterexample to C1 as stated: the claim says a heartbeat arriving
exactly `T + ε` (5 minutes + 30 seconds) before the tick does not trigger
an offline alert, but with the last heartbeat at instant 0 the sweep at
instant 330000 (= 5·60000 + 30000, exactly `T + ε`) does transition the
store and fires the offline alert, because the code compares against the
bare threshold `T` with no 30-second buffer. -/
theorem C1_exact_buffer_counterexample :
    stC1.alertThresholdMinutes = 5 ∧
    (330000 : Nat) = 5 * 60000 + 30000 ∧
    (performHealthCheck 330000 stC1 []).alerts =
      [⟨some "A", AlertKind.offline, Severity.critical⟩] ∧
    (getA (performHealthCheck 330000 stC1 []).state.allStores
      (some "A")).map StoreRec.status = some Status.offline := by
  decide

/-- C2: evaluation of the sweeper at a concrete failing input.  The store
goes silent after instant 0; the sweep at 600000 (10 min) makes the fresh
online-to-offline transition and sends the first offline alert, but
records no last-offline-alert instant; therefore the next sweep at 720000
(12 min) — only 2 minutes later, far less than the 5-minute offline
cooldown — already sends a repeat offline alert. -/
theorem C2_repeat_alert_ignores_cooldown :
    (performHealthCheck 600000 stC1 []).alerts =
      [⟨some "A", AlertKind.offline, Severity.critical⟩] ∧
    getA (performHealthCheck 600000 stC1 []).state.lastOfflineAlerts
      (some "A") = none ∧
    (performHealthCheck 720000
      (performHealthCheck 600000 stC1 []).state []).alerts =
      [⟨some "A", AlertKind.offline, Severity.critical⟩] ∧
    720000 - 600000 < stC1.offlineAlertCooldownMinutes * 60000 := by
  decide

/-- C3 (amended): a store found in persistence but absent from memory is
hydrated into memory — during a sweep by `syncWithDatabase` and at server
startup by `loadExistingStoresFromDB` — carrying the status column stored
in its `stores` row (not a forced `unknown`), and the sweep emits no alert
for it. -/
theorem C3_hydration_keeps_db_status (now : Nat) (st : ServerState)
    (dbStores : List DbStoreRow) (row : DbStoreRow)
    (hnodup : (dbStores.map DbStoreRow.store_id).Nodup)
    (hmem : row ∈ dbStores)
    (habs : getA st.allStores (some row.store_id) = none) :
    getA (performHealthCheck now st dbStores).state.allStores
      (some row.store_id) = some (hydrateRow now row)
    ∧ (∀ a ∈ (performHealthCheck now st dbStores).alerts,
        a.store_id ≠ some row.store_id)
    ∧ getA (loadExistingStoresFromDB st dbStores).allStores
        (some row.store_id) = some (loadRow row)
    ∧ (hydrateRow now row).status = row.status
    ∧ (loadRow row).status = row.status := by
  have hkeys : (some row.store_id : Option String) ∉ st.allStores.map Prod.fst :=
    (getA_eq_none_iff _ _).mp habs
  have hloop : getA (sweepLoop now st st.allStores).state.allStores
      (some row.store_id) = none := by
    rw [sweepLoop_getA_not_mem now st st.allStores _ hkeys]
    exact habs
  refine ⟨?_, ?_, ?_, rfl, rfl⟩
  · exact syncWithDatabase_inserts now row dbStores _ hnodup hmem hloop
  · intro a ha he
    have := sweepLoop_alert_keys now st st.allStores a ha
    rw [he] at this
    exact hkeys this
  · exact loadExistingStoresFromDB_getA row dbStores st hnodup hmem

/-- Witness for C3: hydrating the offline row `rowB` into an empty
registry puts it in memory with the persisted status. -/
theorem C3_hydration_keeps_db_status_witness :
    getA (performHealthCheck 1000 stEmpty [rowB]).state.allStores
      (some "B") = some (hydrateRow 1000 rowB) :=
  (C3_hydration_keeps_db_status 1000 stEmpty [rowB] rowB
    (by decide) (by decide) (by decide)).1

/-- Counterexample to C3 as stated: the claim says a store found in
persistence but absent from memory is hydrated with status `unknown`; but
hydrating `rowB`, whose status column is `offline`, gives an in-memory
record whose status is `offline`, both in the sweep hydration path and in
the startup load path. -/
theorem C3_unknown_counterexample :
    (getA (syncWithDatabase 1000 stEmpty [rowB]).allStores
      (some "B")).map StoreRec.status = some Status.offline ∧
    (getA (loadExistingStoresFromDB stEmpty [rowB]).allStores
      (some "B")).map StoreRec.status = some Status.offline ∧
    Status.offline ≠ Status.unknown := by
  decide

theorem peekBatch_unsent (buffer : List BufEntry) :
    ∀ e ∈ peekBatch buffer, e.sent = false := by
  intro e he
  have hf : e ∈ buffer.filter (fun x => !x.sent) :=
    List.take_subset _ _ he
  have := (List.mem_filter.mp hf).2
  simpa using this

/-- C4 (amended): a body that fails JSON parsing is rejected with 400 by
the `express.json` middleware, but a parsed heartbeat missing `store_id`
is processed normally and acknowledged with HTTP 200 and a success ack;
on the client, an entry whose buffered POST fails with a non-network error
is skipped for the rest of the drain pass but is left unsent in the
buffer, so it is picked up again by later drains until the retention GC
removes it. -/
theorem C4_bad_input_handling (st : ServerState) (dbOk : Bool)
    (hb : Heartbeat) (now : Nat) (buffer : List BufEntry)
    (outcome : Nat → SendOutcome) (e : BufEntry)
    (_hsid : hb.store_id = none)
    (he : e ∈ peekBatch buffer)
    (ho : outcome e.id = SendOutcome.httpError) :
    (heartbeatRoute st dbOk none now).1.httpStatus = 400
    ∧ (heartbeatRoute st dbOk (some hb) now).1.httpStatus = 200
    ∧ ((heartbeatRoute st dbOk (some hb) now).1.ack).map Ack.status =
        some "success"
    ∧ e.sent = false
    ∧ e ∈ sendBufferedHeartbeats outcome buffer := by
  refine ⟨rfl, rfl, rfl, peekBatch_unsent buffer e he, ?_⟩
  rw [sendBufferedHeartbeats, drainBatch_eq_markAll]
  have hnm : e.id ∉ markedIds outcome (peekBatch buffer) := by
    intro hm
    have := markedIds_outcome_ok outcome (peekBatch buffer) hm
    rw [ho] at this
    exact absurd this (by decide)
  have hbuf : e ∈ buffer := (peekBatch_sublist buffer).subset he
  exact List.mem_map.mpr ⟨e, hbuf, by rw [if_neg hnm]⟩

/-- Witness for C4: a missing body gets 400, the no-`store_id` heartbeat
`hb0` gets 200 with a success ack, and the buffered entry `eC4`, whose
POST fails with an HTTP error, stays unsent in the buffer. -/
theorem C4_bad_input_handling_witness :
    (heartbeatRoute stEmpty true none 0).1.httpStatus = 400
    ∧ (heartbeatRoute stEmpty true (some hb0) 0).1.httpStatus = 200
    ∧ ((heartbeatRoute stEmpty true (some hb0) 0).1.ack).map Ack.status =
        some "success"
    ∧ eC4.sent = false
    ∧ eC4 ∈ sendBufferedHeartbeats outC4 bufC4 :=
  C4_bad_input_handling stEmpty true hb0 0 bufC4 outC4 eC4
    (by decide) (by decide) (by decide)

/-- Counterexample to C4 as stated: the claim says a heartbeat missing
`store_id` is answered with a 4xx status rather than a success ack, but
the route accepts `hb0` (which has no `store_id`) with HTTP 200 and a
`"success"` ack body. -/
theorem C4_missing_store_id_counterexample :
    hb0.store_id = none
    ∧ (heartbeatRoute stEmpty true (some hb0) 0).1.httpStatus = 200
    ∧ ((heartbeatRoute stEmpty true (some hb0) 0).1.ack).map Ack.status =
        some "success"
    ∧ ¬(400 ≤ (heartbeatRoute stEmpty true (some hb0) 0).1.httpStatus ∧
        (heartbeatRoute stEmpty true (some hb0) 0).1.httpStatus < 500) := by
  decide

/-- C5: a heartbeat carrying `is_startup = true` for a store that already
has a record — whatever its current status, offline included — is handled
by the startup branch of `processHeartbeat`: every alert it emits is a
startup alert and no recovery alert is emitted. -/
theorem C5_startup_never_recovery (st : ServerState) (dbOk : Bool)
    (hb : Heartbeat) (now : Nat)
    (hprev : (getA st.allStores hb.store_id).isSome = true)
    (hstartup : hb.is_startup = some true) :
    ((processHeartbeat st dbOk hb now).alerts.filter
      (fun a => a.kind == AlertKind.recovery)) = []
    ∧ ((processHeartbeat st dbOk hb now).alerts.all
      (fun a => a.kind == AlertKind.startup)) = true := by
  obtain ⟨p, hp⟩ := Option.isSome_iff_exists.mp hprev
  simp only [processHeartbeat, processHeartbeatCore, hp, hstartup]
  simp only [Option.isNone_some, Bool.false_eq_true, if_false, decide_True,
    if_true]
  split
  · constructor <;> rfl
  · constructor <;> rfl

/-- Witness for C5: the startup-flagged heartbeat on the offline store A
yields exactly one startup alert and no recovery alert. -/
theorem C5_startup_never_recovery_witness :
    (((processHeartbeat stC5 true hbStartup 1000).alerts.filter
      (fun a => a.kind == AlertKind.recovery)) = []
    ∧ ((processHeartbeat stC5 true hbStartup 1000).alerts.all
      (fun a => a.kind == AlertKind.startup)) = true)
    ∧ (processHeartbeat stC5 true hbStartup 1000).alerts ≠ [] :=
  ⟨C5_startup_never_recovery stC5 true hbStartup 1000 (by decide) (by decide),
   by decide⟩

/-- C6: the drain peeks at most ten unsent entries, in ascending id order
when the buffer is id-sorted; and the resulting buffer is exactly the old
buffer with `sent := true` on the ids of `markedIds` — the entries that
are reached before the first valid entry whose POST fails with a
network-class error (`attempted` is that prefix, so the drain aborts
there, leaving the rest untouched) and whose own POST returned 200
(non-network failures and invalid entries are skipped and the loop
continues past them). -/
theorem C6_buffer_drain (buffer : List BufEntry) (outcome : Nat → SendOutcome)
    (hasc : buffer.Pairwise (fun a b => a.id < b.id)) :
    (peekBatch buffer).length ≤ 10
    ∧ ((peekBatch buffer).all (fun e => !e.sent)) = true
    ∧ (peekBatch buffer).Pairwise (fun a b => a.id < b.id)
    ∧ sendBufferedHeartbeats outcome buffer =
        buffer.map (fun e =>
          if e.id ∈ markedIds outcome (peekBatch buffer)
          then { e with sent := true } else e) := by
  refine ⟨?_, ?_, ?_, ?_⟩
  · exact List.length_take_le _ _
  · rw [List.all_eq_true]
    intro e he
    have := peekBatch_unsent buffer e he
    simp [this]
  · exact List.Pairwise.sublist (peekBatch_sublist buffer) hasc
  · exact drainBatch_eq_markAll outcome (peekBatch buffer) buffer

/-- Witness for C6: on the three-entry buffer, entry 1 is marked sent,
the network failure on entry 2 aborts the drain, and entry 3 — although
its POST would succeed — is left unsent for the next tick. -/
theorem C6_buffer_drain_witness :
    (bufC6.Pairwise (fun a b => a.id < b.id))
    ∧ ((peekBatch bufC6).length ≤ 10
      ∧ ((peekBatch bufC6).all (fun e => !e.sent)) = true
      ∧ (peekBatch bufC6).Pairwise (fun a b => a.id < b.id)
      ∧ sendBufferedHeartbeats outC6 bufC6 =
          bufC6.map (fun e =>
            if e.id ∈ markedIds outC6 (peekBatch bufC6)
            then { e with sent := true } else e))
    ∧ (sendBufferedHeartbeats outC6 bufC6).map
        (fun e => (e.id, e.sent)) = [(1, true), (2, false), (3, false)] :=
  ⟨by decide, C6_buffer_drain bufC6 outC6 (by decide), by decide⟩

theorem sendHeartbeatStep_true (st : ClientState) :
    sendHeartbeatStep st true =
      (st.isFirstHeartbeat,
        { st with isFirstHeartbeat := false, consecutiveFailures := 0 }) := rfl

theorem sendHeartbeatStep_false (st : ClientState) :
    sendHeartbeatStep st false =
      (st.isFirstHeartbeat,
        { st with consecutiveFailures := st.consecutiveFailures + 1 }) := rfl

theorem runHeartbeatAttempts_length :
    ∀ (outs : List Bool) (st : ClientState),
      (runHeartbeatAttempts st outs).length = outs.length := by
  intro outs
  induction outs with
  | nil => intro st; rfl
  | cons ok rest ih =>
    intro st
    simp only [runHeartbeatAttempts, List.length_cons, ih]

theorem runHeartbeatAttempts_getElem :
    ∀ (outs : List Bool) (st : ClientState) (i : Nat),
      (runHeartbeatAttempts st outs)[i]? = some true ↔
        (st.isFirstHeartbeat = true ∧ i < outs.length ∧
          ∀ j < i, outs[j]? = some false) := by
  intro outs
  induction outs with
  | nil =>
    intro st i
    simp [runHeartbeatAttempts]
  | cons ok rest ih =>
    intro st i
    cases ok with
    | true =>
      cases i with
      | zero =>
        simp [runHeartbeatAttempts, sendHeartbeatStep_true]
      | succ k =>
        simp only [runHeartbeatAttempts, sendHeartbeatStep_true,
          List.getElem?_cons_succ]
        rw [ih]
        constructor
        · intro h
          exact absurd h.1 (by simp)
        · rintro ⟨hf, hlt, hall⟩
          have h0 := hall 0 (Nat.succ_pos k)
          simp at h0
    | false =>
      cases i with
      | zero =>
        simp [runHeartbeatAttempts, sendHeartbeatStep_false]
      | succ k =>
        simp only [runHeartbeatAttempts, sendHeartbeatStep_false,
          List.getElem?_cons_succ]
        rw [ih]
        dsimp only
        constructor
        · rintro ⟨hf, hlt, hall⟩
          refine ⟨hf, Nat.succ_lt_succ hlt, ?_⟩
          intro j hj
          cases j with
          | zero => simp
          | succ m =>
            rw [List.getElem?_cons_succ]
            exact hall m (Nat.lt_of_succ_lt_succ hj)
        · rintro ⟨hf, hlt, hall⟩
          refine ⟨hf, Nat.lt_of_succ_lt_succ hlt, ?_⟩
          intro m hm
          have hx := hall (m + 1) (Nat.succ_lt_succ hm)
          rw [List.getElem?_cons_succ] at hx
          exact hx

/-- C7: the client constructor sets `isFirstHeartbeat`, every attempt
carries the current flag as `is_startup`, and the run of attempts carries
`is_startup = true` on attempt `i` exactly when every earlier delivery
failed — i.e. the flag is true from the initial heartbeat up to and
including the first successful delivery, and false on every later
heartbeat of the client process. -/
theorem C7_startup_flag_until_first_success (outs : List Bool) (i : Nat) :
    initialClient.isFirstHeartbeat = true
    ∧ (runHeartbeatAttempts initialClient outs).length = outs.length
    ∧ ((runHeartbeatAttempts initialClient outs)[i]? = some true ↔
        (i < outs.length ∧ ∀ j < i, outs[j]? = some false)) := by
  refine ⟨rfl, runHeartbeatAttempts_length outs initialClient, ?_⟩
  rw [runHeartbeatAttempts_getElem]
  simp [initialClient]

/-- Witness for C7: with two failed deliveries, then a success, then a
failure, the carried flags are exactly true, true, true, false. -/
theorem C7_startup_flag_until_first_success_witness :
    (((runHeartbeatAttempts initialClient [false, false, true, false])[2]? =
        some true) ↔
      (2 < 4 ∧ ∀ j < 2, ([false, false, true, false] : List Bool)[j]? =
        some false))
    ∧ runHeartbeatAttempts initialClient [false, false, true, false] =
        [true, true, true, false] :=
  ⟨(C7_startup_flag_until_first_success [false, false, true, false] 2).2.2,
   by decide⟩

/-- C8: the database outcome of `saveHeartbeatToDatabase` (the one
transaction holding the store upsert, the `heartbeat_history` insert and
the `system_stats` insert) influences nothing but the transaction record
itself: with a failing database the ack is still the success ack, and the
in-memory state and alert decisions are identical to the
database-available run. -/
theorem C8_db_failure_does_not_fail_ack (st : ServerState) (hb : Heartbeat)
    (now : Nat) :
    (processHeartbeat st false hb now).ack = (processHeartbeat st true hb now).ack
    ∧ (processHeartbeat st false hb now).state =
        (processHeartbeat st true hb now).state
    ∧ (processHeartbeat st false hb now).alerts =
        (processHeartbeat st true hb now).alerts
    ∧ (processHeartbeat st false hb now).ack.status = "success"
    ∧ (processHeartbeat st false hb now).txn = none
    ∧ (processHeartbeat st true hb now).txn =
        some ⟨hb.store_id, jsOrDefault hb.store_name "Store", now,
          Status.online, true, true⟩ :=
  ⟨rfl, rfl, rfl, rfl, rfl, rfl⟩

/-- Witness for C8 at a concrete heartbeat. -/
theorem C8_db_failure_does_not_fail_ack_witness :
    (processHeartbeat stEmpty false hbC8 5000).ack =
      (processHeartbeat stEmpty true hbC8 5000).ack
    ∧ (processHeartbeat stEmpty false hbC8 5000).state =
        (processHeartbeat stEmpty true hbC8 5000).state
    ∧ (processHeartbeat stEmpty false hbC8 5000).alerts =
        (processHeartbeat stEmpty true hbC8 5000).alerts
    ∧ (processHeartbeat stEmpty false hbC8 5000).ack.status = "success"
    ∧ (processHeartbeat stEmpty false hbC8 5000).txn = none
    ∧ (processHeartbeat stEmpty true hbC8 5000).txn =
        some ⟨hbC8.store_id, jsOrDefault hbC8.store_name "Store", 5000,
          Status.online, true, true⟩ :=
  C8_db_failure_does_not_fail_ack stEmpty hbC8 5000

/-- C9: the recipient set resolved for an alert is the store's configured
list when that is non-empty and the `"default"` list otherwise; the alert
row is persisted unconditionally, and when the resolved recipient set is
empty no notification is handed to the transporter (notifications, when
any, go exactly to the resolved set). -/
theorem C9_recipient_resolution (st : ServerState) (sid : Option String)
    (kind : AlertKind) (sev : Severity) :
    (storeConfiguredEmails st sid ≠ [] →
      getEmailRecipients st sid = storeConfiguredEmails st sid)
    ∧ (storeConfiguredEmails st sid = [] →
      getEmailRecipients st sid = defaultConfiguredEmails st)
    ∧ (sendAlert st sid kind sev).1 = [⟨sid, alertTypeMapping kind, sev⟩]
    ∧ (getEmailRecipients st sid = [] → (sendAlert st sid kind sev).2 = [])
    ∧ ((sendAlert st sid kind sev).2 = [] ∨
        (sendAlert st sid kind sev).2 =
          [⟨getEmailRecipients st sid, sid, kind⟩]) := by
  refine ⟨?_, ?_, ?_, ?_, ?_⟩
  · intro h
    unfold getEmailRecipients
    rw [if_pos (List.length_pos.mpr h)]
  · intro h
    unfold getEmailRecipients
    rw [h]
    simp
  · simp only [sendAlert]
    split
    · rfl
    · split <;> rfl
  · intro h
    simp only [sendAlert]
    split
    · rfl
    · split
      · rfl
      · exfalso
        rename_i hlen
        rw [h] at hlen
        simp at hlen
  · simp only [sendAlert]
    split
    · left; rfl
    · split
      · left; rfl
      · right; rfl

/-- Witness for C9: with only a default list configured, an offline alert
for store A resolves to the default recipients; the persisted row is
there and one notification goes to them. -/
theorem C9_recipient_resolution_witness :
    ((storeConfiguredEmails stC9 (some "A") ≠ [] →
      getEmailRecipients stC9 (some "A") = storeConfiguredEmails stC9 (some "A"))
    ∧ (storeConfiguredEmails stC9 (some "A") = [] →
      getEmailRecipients stC9 (some "A") = defaultConfiguredEmails stC9)
    ∧ (sendAlert stC9 (some "A") AlertKind.offline Severity.critical).1 =
        [⟨some "A", alertTypeMapping AlertKind.offline, Severity.critical⟩]
    ∧ (getEmailRecipients stC9 (some "A") = [] →
        (sendAlert stC9 (some "A") AlertKind.offline Severity.critical).2 = [])
    ∧ ((sendAlert stC9 (some "A") AlertKind.offline Severity.critical).2 = [] ∨
        (sendAlert stC9 (some "A") AlertKind.offline Severity.critical).2 =
          [⟨getEmailRecipients stC9 (some "A"), some "A", AlertKind.offline⟩]))
    ∧ getEmailRecipients stC9 (some "A") = ["ops"] :=
  ⟨C9_recipient_resolution stC9 (some "A") AlertKind.offline Severity.critical,
   by decide⟩

/-- C10 (amended): the durable-store garbage collection deletes exactly
the buffered entries older than the 24-hour retention window, while the
in-memory fallback deletes exactly the entries older than one hour — not
24 hours. -/
theorem C10_gc_retention_windows (now : Nat) (buffer : List BufEntry)
    (mbuffer : List MemEntry) (e : BufEntry) (m : MemEntry)
    (hbe : e ∈ buffer) (hme : m ∈ mbuffer) :
    ((now : Int) - e.storedAt > 86400000 →
      e ∉ clearOldBufferedHeartbeatsDb now buffer)
    ∧ ((now : Int) - e.storedAt ≤ 86400000 →
      e ∈ clearOldBufferedHeartbeatsDb now buffer)
    ∧ ((now : Int) - m.storedAt ≥ 3600000 →
      m ∉ clearOldBufferedHeartbeatsMem now mbuffer)
    ∧ ((now : Int) - m.storedAt < 3600000 →
      m ∈ clearOldBufferedHeartbeatsMem now mbuffer) := by
  refine ⟨?_, ?_, ?_, ?_⟩ <;> intro h
  · intro hc
    have := (List.mem_filter.mp hc).2
    simp only [clearOldBufferedHeartbeatsDb] at this ⊢
    simp at this
    omega
  · apply List.mem_filter.mpr
    refine ⟨hbe, ?_⟩
    simp
    omega
  · intro hc
    have := (List.mem_filter.mp hc).2
    simp at this
    omega
  · apply List.mem_filter.mpr
    refine ⟨hme, ?_⟩
    simp
    omega

/-- Witness for C10: at `now = 90000000` the durable GC deletes the
25-hour-old `eC10` and the memory GC keeps the 16-minute-old `mC10`. -/
theorem C10_gc_retention_windows_witness :
    eC10 ∉ clearOldBufferedHeartbeatsDb 90000000 [eC10]
    ∧ mC10 ∈ clearOldBufferedHeartbeatsMem 90000000 [mC10] :=
  ⟨(C10_gc_retention_windows 90000000 [eC10] [mC10] eC10 mC10
      (by decide) (by decide)).1 (by decide),
   (C10_gc_retention_windows 90000000 [eC10] [mC10] eC10 mC10
      (by decide) (by decide)).2.2.2 (by decide)⟩

/-- Counterexample to C10 as stated: the claim says both modes use the
24-hour retention window, but the in-memory fallback deletes an entry
only two hours old (stored at 100000000, collected at 107200000), an
entry which is not older than 24 hours. -/
theorem C10_memory_window_counterexample :
    clearOldBufferedHeartbeatsMem 107200000 [⟨1, 100000000⟩] = []
    ∧ ¬((100000000 : Int) < (107200000 : Int) - 86400000)
    ∧ clearOldBufferedHeartbeatsDb 107200000
        [⟨1, 100000000, false, true, true⟩] =
        [⟨1, 100000000, false, true, true⟩] := by
  decide

end AlertHongs
